import Mathlib

/-!
Verification of the femto geometry-to-instruction compiler
(`src/femto/Cell.py`, `src/femto/Parameters.py`).

Shallow embedding conventions:
* machine floats are idealised as rationals `ℚ`;
* a Python `raise` is an `Except.error` carrying the message string;
* the numpy `np.nan` "no-draw" sentinel written by `Cell._shutter_mask`
  is modelled as `none : Option ℚ` (a masked coordinate), `some v` being
  an ordinary numeric coordinate;
* Python heterogeneous values handed to `Cell.append` are modelled by the
  closed inductive `Obj` of the shapes the library manipulates.
-/

namespace Femto

/-- A sampled path point: columns `(x, y, z, f, s)` of the numpy point
array used throughout `Cell.py` (`x, y, z` spatial coordinates, `f` the
feed-rate-or-placeholder attribute, `s` the shutter attribute). -/
structure Point where
  x : ℚ
  y : ℚ
  z : ℚ
  f : ℚ
  s : ℚ
deriving DecidableEq, Repr

/-- An opaque trench block (the `Trench` class is outside `src/`; its
payload is irrelevant to the claims, only its identity). -/
structure TrenchBlock where
  id : ℕ
deriving DecidableEq, Repr

/-- The closed universe of Python values the claims exercise against
`Cell.append`: the four recognised variants (`Marker`, `Waveguide`,
`Trench`, `TrenchColumn`), plain Python lists of such values, and plain
numbers.  A `TrenchColumn` is, per the data model, an ordered collection
of `TrenchBlock`s (it exclusively owns them), and iterating it yields
those blocks.  `Marker` and `Waveguide` carry their scan-repetition
count and their raw point sequence, the two attributes `Cell` reads. -/
inductive Obj where
  | marker (scan : ℤ) (points : List Point)
  | waveguide (scan : ℤ) (points : List Point)
  | trench (t : TrenchBlock)
  | trenchColumn (ts : List TrenchBlock)
  | objList (xs : List Obj)
  | pyInt (n : ℤ)
  | pyFloat (q : ℚ)

/-- Python `type(obj)` name, as it appears in `Cell.append`'s error
message. -/
def typeName : Obj → String
  | .marker _ _ => "Marker"
  | .waveguide _ _ => "Waveguide"
  | .trench _ => "Trench"
  | .trenchColumn _ => "TrenchColumn"
  | .objList _ => "list"
  | .pyInt _ => "int"
  | .pyFloat _ => "float"

/-- `isinstance(x, Waveguide)`. -/
def isWaveguide : Obj → Bool
  | .waveguide _ _ => true
  | _ => false

/-- `isinstance(x, Marker)`. -/
def isMarker : Obj → Bool
  | .marker _ _ => true
  | _ => false

/-- The `Cell` composition root: its four independent collections
(`Cell.__init__`). -/
structure Cell where
  waveguides : List Obj
  markers : List Obj
  trenches : List Obj
  trench_cols : List Obj

/-- The error message raised by `Cell.append` on an unsupported value
(`Cell.py` line 37); it names the received type. -/
def appendErrMsg (tn : String) : String :=
  "The object must be a Waveguide, Marker or Trench object. " ++ tn ++ " was given."

/-- The loop `for trc in obj: self.append(trc)` of the `TrenchColumn`
branch of `Cell.append`: iterating a column yields its trench blocks,
each of which lands in the `Trench` branch, i.e. is appended to the
`trenches` collection. -/
def appendTrenches (c : Cell) : List TrenchBlock → Cell
  | [] => c
  | t :: ts => appendTrenches { c with trenches := c.trenches ++ [.trench t] } ts

/-- `Cell.append` (`Cell.py` lines 25-37), as a state transformer: the
result is the cell after the call together with `none` on success or
`some msg` when a `TypeError` is raised.  The branches mirror the
`isinstance` chain in source order: `Marker`; `Waveguide` or a list all
of whose elements are `Waveguide`s; `Trench`; `TrenchColumn` (each
member re-appended through the `Trench` branch by `appendTrenches`,
then the column itself recorded); otherwise `TypeError`.  On a raise
the cell is returned unmodified, as the Python method mutates nothing
before raising. -/
def Cell.append (c : Cell) (obj : Obj) : Cell × Option String :=
  match obj with
  | .marker s p => ({ c with markers := c.markers ++ [.marker s p] }, none)
  | .waveguide s p => ({ c with waveguides := c.waveguides ++ [.waveguide s p] }, none)
  | .objList xs =>
      if xs.all isWaveguide then
        ({ c with waveguides := c.waveguides ++ [.objList xs] }, none)
      else
        (c, some (appendErrMsg (typeName (.objList xs))))
  | .trench t => ({ c with trenches := c.trenches ++ [.trench t] }, none)
  | .trenchColumn ts =>
      let c2 := appendTrenches c ts
      ({ c2 with trench_cols := c2.trench_cols ++ [.trenchColumn ts] }, none)
  | other => (c, some (appendErrMsg (typeName other)))

/-- The insertion-admissibility predicate of the claim: exactly one of
the four recognised variants, or a homogeneous list of `Waveguide`s. -/
def recognized : Obj → Bool
  | .marker _ _ => true
  | .waveguide _ _ => true
  | .trench _ => true
  | .trenchColumn _ => true
  | .objList xs => xs.all isWaveguide
  | _ => false

/-- The error message raised by `Cell._shutter_mask` on an out-of-range
shutter state (`Cell.py` line 229). -/
def shutterErrMsg (shutter : ℤ) : String :=
  s!"Shutter must be either OPEN (1) or CLOSE (0). Given {shutter}."

/-- `Cell._shutter_mask` (`Cell.py` lines 226-233).  Raises unless
`shutter ∈ \x7b0, 1\x7d`; otherwise unpacks the point columns and returns
`(x, ym, zm)` where `ym`/`zm` keep the point's own `y`/`z` exactly when
the point's shutter attribute equals `shutter`, and are the `np.nan`
no-draw sentinel (modelled `none`) otherwise; `x` is passed through
untouched. -/
def shutter_mask (points : List Point) (shutter : ℤ) :
    Except String (List ℚ × List (Option ℚ) × List (Option ℚ)) :=
  if shutter = 0 ∨ shutter = 1 then
    .ok (points.map (fun p => p.x),
         points.map (fun p => if p.s = (shutter : ℚ) then some p.y else none),
         points.map (fun p => if p.s = (shutter : ℚ) then some p.z else none))
  else
    .error (shutterErrMsg shutter)

/-! ### Parameters.py -/

/-- How Python prints an optional float inside an f-string: `None` for
`None`, otherwise the number (idealised via the rational's `toString`). -/
def pyShow : Option ℚ → String
  | none => "None"
  | some q => toString q

/-- Python's `str.upper()` (ASCII case mapping), as the per-character
upper-casing of the string's character list. -/
def pyUpper (s : String) : String :=
  ⟨s.data.map Char.toUpper⟩

/-- The error raised by `GcodeParameters.set_tshutter` on an
unrecognised lab (`Parameters.py` lines 45-46). -/
def labErrMsg (lab : String) : String :=
  "Lab can be only CAPABLE, DIAMOND or FIRE Given " ++ lab ++ "."

/-- The error raised by `GcodeParameters.antiwarp_management` when warp
is enabled and a sample-size component is `None` (`Parameters.py` lines
71-72); it reports both sample-size values. -/
def sampleSizeErrMsg (samplesize : Option ℚ × Option ℚ) : String :=
  "Wrong sample size dimensions. Given (" ++ pyShow samplesize.1 ++ ", " ++
    pyShow samplesize.2 ++ ")."

/-- `GcodeParameters.set_tshutter` (`Parameters.py` lines 43-50): raises
unless `lab.upper()` is one of `CAPABLE`, `DIAMOND`, `FIRE`; returns the
settling time `0` for `CAPABLE` and `0.005` otherwise. -/
def set_tshutter (lab : String) : Except String ℚ :=
  if ¬ (pyUpper lab = "CAPABLE" ∨ pyUpper lab = "DIAMOND" ∨ pyUpper lab = "FIRE") then
    .error (labErrMsg lab)
  else if pyUpper lab = "CAPABLE" then
    .ok 0
  else
    .ok (5 / 1000)

/-- `GcodeParameters.antiwarp_management` (`Parameters.py` lines 52-81).
When `opt` is false the installed warp function is the literal zero
function.  When `opt` is true, a `None` sample-size component raises
before anything else; otherwise the function is fetched from the on-disk
pickle (or interactively generated) — pure I/O outside the core, modelled
by the externally supplied `external` function, which the masked branch
never consults. -/
def antiwarp_management (opt : Bool) (samplesize : Option ℚ × Option ℚ)
    (external : ℚ → ℚ → ℚ) : Except String (ℚ → ℚ → ℚ) :=
  if opt then
    if samplesize.1 = none ∨ samplesize.2 = none then
      .error (sampleSizeErrMsg samplesize)
    else
      .ok external
  else
    .ok (fun _ _ => 0)

/-- The configuration record built by `GcodeParameters.__init__`
(`Parameters.py` lines 13-41): the fields the claims touch. -/
structure GcodeParameters where
  filename : Option String
  samplesize : Option ℚ × Option ℚ
  lab : String
  warp_flag : Bool
  fwarp : ℚ → ℚ → ℚ
  tshutter : ℚ
  long_pause : ℚ
  short_pause : ℚ
  output_digits : ℤ
  nglass : ℚ
  nenv : ℚ
  angle : ℚ
  neff : ℚ
  xsample : Option ℚ
  ysample : Option ℚ

/-- `GcodeParameters.__init__` (`Parameters.py` lines 13-41), in source
order: `fwarp` is computed by `antiwarp_management` first (line 30), the
shutter settling time by `set_tshutter` second (line 31); either raise
aborts construction eagerly. -/
def gcodeParameters_init (filename : Option String)
    (samplesize : Option ℚ × Option ℚ) (lab : String) (warp_flag : Bool)
    (n_glass n_environment angle long_pause short_pause : ℚ)
    (output_digits : ℤ) (external : ℚ → ℚ → ℚ) :
    Except String GcodeParameters := do
  let fwarp ← antiwarp_management warp_flag samplesize external
  let tsh ← set_tshutter lab
  .ok { filename := filename
        samplesize := samplesize
        lab := lab
        warp_flag := warp_flag
        fwarp := fwarp
        tshutter := tsh
        long_pause := long_pause
        short_pause := short_pause
        output_digits := output_digits
        nglass := n_glass
        nenv := n_environment
        angle := angle
        neff := n_glass / n_environment
        xsample := samplesize.1
        ysample := samplesize.2 }

/-- A Python number passed as the `scan` argument: either an `int` or a
non-`int` float (`isinstance(scan, int)` distinguishes exactly these). -/
inductive PyNumber where
  | int (n : ℤ)
  | float (q : ℚ)
deriving DecidableEq, Repr

/-- The waveguide parameter record built by
`WaveguideParameters.__init__` (`Parameters.py` lines 128-165). -/
structure WaveguideParameters where
  scan : ℤ
  speed : ℚ
  depth : ℚ
  radius : ℚ
  speedpos : ℚ
  dwelltime : ℚ
  cmd_rate_max : ℚ
  acc_max : ℚ
  dsafe : ℚ
  margin : ℚ
  lvelo : ℚ
  dl : ℚ
  lwarp : ℚ
deriving DecidableEq, Repr

/-- `WaveguideParameters.__init__` (`Parameters.py` lines 128-165):
raises `ValueError('Number of scan must be integer.')` when `scan` is
not an `int` (the only validation performed on it), then stores the
inputs and the derived quantities `lvelo = 3 * (0.5 * speed^2 / acc_max)`,
`dl = speed / cmd_rate_max` and `lwarp = 10 * dl`. -/
def waveguideParameters_init (scan : PyNumber) (speed : ℚ)
    (depth radius speedpos dwelltime dsafe margin cmd_rate_max acc_max : ℚ) :
    Except String WaveguideParameters :=
  match scan with
  | .float _ => .error "Number of scan must be integer."
  | .int n =>
      .ok { scan := n
            speed := speed
            depth := depth
            radius := radius
            speedpos := speedpos
            dwelltime := dwelltime
            cmd_rate_max := cmd_rate_max
            acc_max := acc_max
            dsafe := dsafe
            margin := margin
            lvelo := 3 * (1 / 2 * speed ^ 2 / acc_max)
            dl := speed / cmd_rate_max
            lwarp := 10 * (speed / cmd_rate_max) }

/-! ### Program emission (`Cell._wg_pgm`, `Cell._mk_pgm`) -/

mutual

/-- Modelled from the spec: `nest_level` lives in `femto.helpers`, which
is not under `src/`; per the spec's nesting-depth language, it returns
the nesting depth of a possibly nested list structure — `0` for a
non-list value, and for a list one more than the maximum depth of its
elements (so a flat list has depth 1, a list of lists depth 2). -/
def nest_level : Obj → ℕ
  | .objList xs => 1 + nest_levelList xs
  | _ => 0

/-- Maximum `nest_level` over the elements of a list (`0` when empty). -/
def nest_levelList : List Obj → ℕ
  | [] => 0
  | o :: os => max (nest_level o) (nest_levelList os)

end

/-- Modelled from the spec: `listcast` lives in `femto.helpers`, which is
not under `src/`; it returns a list argument unchanged and wraps any
other value in a singleton list (so single objects and bunches are
iterated uniformly). -/
def listcast : Obj → List Obj
  | .objList xs => xs
  | o => [o]

/-- The scan-repetition attribute `obj.scan` (`none` models Python's
`AttributeError` for objects without it). -/
def scanAttr : Obj → Option ℤ
  | .marker s _ => some s
  | .waveguide s _ => some s
  | _ => none

/-- The raw point sequence `obj.points` (`none` models `AttributeError`). -/
def pointsAttr : Obj → Option (List Point)
  | .marker _ ps => some ps
  | .waveguide _ ps => some ps
  | _ => none

/-- An emitted instruction, discriminated as in the spec's data model. -/
inductive Instruction where
  | header
  | dwell (t : ℚ)
  | repeatBegin (n : ℤ)
  | repeatEnd
  | move (p : Point)
  | home
deriving DecidableEq, Repr

/-- Modelled from the spec: `PGMCompiler.write` is not under `src/`; it
emits one MOVE instruction per transformed point of the object's point
sequence. -/
def writeMoves (ps : List Point) : List Instruction :=
  ps.map Instruction.move

/-- Body of `for wg in listcast(bunch): ... self.write(wg.points)`:
emits the MOVE instructions of each object in turn; a member without a
`points` attribute raises `AttributeError`. -/
def emitWrites : List Obj → Except String (List Instruction)
  | [] => .ok []
  | o :: os => do
      let ps ← match pointsAttr o with
        | none => Except.error ("AttributeError: " ++ typeName o)
        | some ps => Except.ok ps
      let rest ← emitWrites os
      .ok (writeMoves ps ++ rest)

/-- One bunch of the per-class loop (`Cell.py` lines 164-168 and
195-199): `with self.repeat(listcast(bunch)[0].scan): for o in
listcast(bunch): self.write(o.points)`.  Indexing `[0]` on an empty
bunch raises `IndexError`; a first member without `scan` raises
`AttributeError`; otherwise the bunch body is bracketed by the repeat
block of the first member's scan count. -/
def emitBunch (bunch : Obj) : Except String (List Instruction) := do
  let first ← match (listcast bunch).head? with
    | none => Except.error "IndexError: list index out of range"
    | some o => Except.ok o
  let scan ← match scanAttr first with
    | none => Except.error ("AttributeError: " ++ typeName first)
    | some s => Except.ok s
  let body ← emitWrites (listcast bunch)
  .ok (Instruction.repeatBegin scan :: body ++ [Instruction.repeatEnd])

/-- Sequential emission of every bunch of a collection. -/
def emitBunches : List Obj → Except String (List Instruction)
  | [] => .ok []
  | b :: bs => do
      let ins ← emitBunch b
      let rest ← emitBunches bs
      .ok (ins ++ rest)

/-- The `ValueError` message of `Cell._wg_pgm` (`Cell.py` lines 151-153):
it names the observed depth and the limit 2. -/
def wgNestErrMsg (depth : ℕ) : String :=
  s!"The waveguide list has too many nested levels ({depth}. The maximum value is 2."

/-- The `ValueError` message of `Cell._mk_pgm` (`Cell.py` lines 182-184):
it names the observed depth and the limit 1. -/
def mkNestErrMsg (depth : ℕ) : String :=
  s!"The markers list has too many nested levels ({depth}. The maximum value is 1."

/-- `Cell._wg_pgm` (`Cell.py` lines 149-178) as the instruction program
it accumulates: first the nesting-depth guard (raising before any
instruction is emitted or file written), then the early return on an
empty collection, then HEADER, an initial DWELL, one repeat block per
bunch, and the final HOME.  The file write and timing printout are
I/O outside the embedding. -/
def wg_pgm (waveguides : List Obj) : Except String (List Instruction) :=
  if nest_level (.objList waveguides) > 2 then
    .error (wgNestErrMsg (nest_level (.objList waveguides)))
  else if waveguides.isEmpty then
    .ok []
  else do
    let body ← emitBunches waveguides
    .ok (Instruction.header :: Instruction.dwell 1 :: body ++ [Instruction.home])

/-- `Cell._mk_pgm` (`Cell.py` lines 180-209): identical shape with the
markers collection and nesting limit 1. -/
def mk_pgm (markers : List Obj) : Except String (List Instruction) :=
  if nest_level (.objList markers) > 1 then
    .error (mkNestErrMsg (nest_level (.objList markers)))
  else if markers.isEmpty then
    .ok []
  else do
    let body ← emitBunches markers
    .ok (Instruction.header :: Instruction.dwell 1 :: body ++ [Instruction.home])

/-- A well-formed waveguide bunch: a single `Waveguide` or a nonempty
homogeneous list of `Waveguide`s — exactly the groupings of nesting
depth at most 2 that the spec's data model admits. -/
def goodWgBunch : Obj → Bool
  | .waveguide _ _ => true
  | .objList xs => !xs.isEmpty && xs.all isWaveguide
  | _ => false

/-- Observer returning `true` exactly on `Except.ok` results, used to
state that a fallible operation succeeds. -/
def isOkB {ε α : Type _} : Except ε α → Bool
  | .ok _ => true
  | .error _ => false

/-! ## Theorems -/

/-- C1: for every point sequence and every `shutter_state ∈ \x7b0, 1\x7d`,
`Cell._shutter_mask` returns same-length coordinate sequences in which
the `y` and `z` of a point whose shutter attribute differs from
`shutter_state` are the no-draw sentinel, the `y` and `z` of a point
whose shutter attribute equals `shutter_state` are unchanged, and every
`x` is returned unchanged. -/
theorem shutter_mask_masks_off_state (pts : List Point) (s : ℤ)
    (h : s = 0 ∨ s = 1) :
    ∃ xs ys zs, shutter_mask pts s = .ok (xs, ys, zs) ∧
      xs.length = pts.length ∧ ys.length = pts.length ∧ zs.length = pts.length ∧
      ∀ i (hi : i < pts.length),
        xs[i]? = some (pts.get ⟨i, hi⟩).x ∧
        ((pts.get ⟨i, hi⟩).s = (s : ℚ) →
          ys[i]? = some (some (pts.get ⟨i, hi⟩).y) ∧
          zs[i]? = some (some (pts.get ⟨i, hi⟩).z)) ∧
        ((pts.get ⟨i, hi⟩).s ≠ (s : ℚ) →
          ys[i]? = some none ∧ zs[i]? = some none) := by
  refine ⟨pts.map (fun p => p.x),
    pts.map (fun p => if p.s = (s : ℚ) then some p.y else none),
    pts.map (fun p => if p.s = (s : ℚ) then some p.z else none),
    by simp [shutter_mask, h], by simp, by simp, by simp, ?_⟩
  intro i hi
  refine ⟨?_, ?_, ?_⟩
  · simp [List.getElem?_eq_getElem, hi]
  · intro hs
    simp only [List.get_eq_getElem] at hs
    simp [List.getElem?_eq_getElem, hi, hs]
  · intro hs
    simp only [List.get_eq_getElem] at hs
    simp [List.getElem?_eq_getElem, hi, hs]

/-- Closed witness for C1: a two-point sequence, one point per shutter
state, masked with `shutter_state = 0`. -/
theorem shutter_mask_masks_off_state_witness :
    ∃ xs ys zs,
      shutter_mask [⟨1, 2, 3, 4, 1⟩, ⟨5, 6, 7, 8, 0⟩] 0 = .ok (xs, ys, zs) ∧
      xs.length = 2 ∧ ys.length = 2 ∧ zs.length = 2 := by
  obtain ⟨xs, ys, zs, hok, hx, hy, hz, -⟩ :=
    shutter_mask_masks_off_state [⟨1, 2, 3, 4, 1⟩, ⟨5, 6, 7, 8, 0⟩] 0 (Or.inl rfl)
  exact ⟨xs, ys, zs, hok, by simpa using hx, by simpa using hy, by simpa using hz⟩

/-- C2: `Cell._shutter_mask` raises exactly when its `shutter` argument
is outside \x7b0, 1\x7d, and never raises for `shutter ∈ \x7b0, 1\x7d`. -/
theorem shutter_mask_raises_iff (pts : List Point) (s : ℤ) :
    (∃ e, shutter_mask pts s = .error e) ↔ ¬ (s = 0 ∨ s = 1) := by
  by_cases h : s = 0 ∨ s = 1 <;> simp [shutter_mask, h]

/-- C4: `Cell.append` succeeds exactly on the recognised variants
(`Marker`, `Waveguide`, `Trench`, `TrenchColumn`, or a homogeneous list
of `Waveguide`s); any other value raises a `TypeError` whose message
names the received type, and on a raise the cell — hence each of its
four collections — is unchanged. -/
theorem append_succeeds_iff_recognized (c : Cell) (obj : Obj) :
    ((c.append obj).2 = none ↔ recognized obj = true) ∧
    ((c.append obj).2 ≠ none →
      (c.append obj).1 = c ∧
      (c.append obj).2 = some (appendErrMsg (typeName obj))) := by
  cases obj with
  | objList xs =>
      by_cases h : xs.all isWaveguide <;>
        simp [Cell.append, recognized, h]
  | _ => simp [Cell.append, recognized]

/-- Closed witness for C4: inserting the plain number `3` raises a
`TypeError` naming `int` and leaves the empty cell unchanged. -/
theorem append_rejects_number_witness :
    (Cell.append ⟨[], [], [], []⟩ (.pyInt 3)).1 = ⟨[], [], [], []⟩ ∧
    (Cell.append ⟨[], [], [], []⟩ (.pyInt 3)).2 =
      some (appendErrMsg "int") := by
  have h := (append_succeeds_iff_recognized ⟨[], [], [], []⟩ (.pyInt 3)).2
    (by simp [Cell.append])
  exact ⟨h.1, h.2⟩

/-- Unfolding of the `TrenchColumn` member loop: appending each trench
block in order extends the `trenches` collection and nothing else. -/
theorem appendTrenches_eq (c : Cell) (ts : List TrenchBlock) :
    appendTrenches c ts = { c with trenches := c.trenches ++ ts.map Obj.trench } := by
  induction ts generalizing c with
  | nil => simp [appendTrenches]
  | cons t ts ih => simp [appendTrenches, ih]

/-- C10: appending a `TrenchColumn` appends each member trench block,
in order, to the `trenches` collection and then the column itself to
`trench_cols`, succeeds, and leaves `waveguides` and `markers`
unchanged. -/
theorem append_trenchColumn_effect (c : Cell) (ts : List TrenchBlock) :
    c.append (.trenchColumn ts) =
      ({ c with trenches := c.trenches ++ ts.map Obj.trench,
                trench_cols := c.trench_cols ++ [Obj.trenchColumn ts] }, none) ∧
    (c.append (.trenchColumn ts)).1.waveguides = c.waveguides ∧
    (c.append (.trenchColumn ts)).1.markers = c.markers := by
  refine ⟨?_, ?_, ?_⟩ <;> simp [Cell.append, appendTrenches_eq]

/-- Counterexample to C3 as stated: the lab name `"capable"` is outside
the closed enumeration \x7bCAPABLE, DIAMOND, FIRE\x7d, yet `set_tshutter`
does not raise — it returns `0`, because the comparison is performed on
`lab.upper()`. -/
theorem set_tshutter_lowercase_cex :
    set_tshutter "capable" = .ok 0 ∧
    ¬ ("capable" = "CAPABLE" ∨ "capable" = "DIAMOND" ∨ "capable" = "FIRE") := by
  exact ⟨rfl, by decide⟩

/-- C3 (amended): `set_tshutter` computes the settling time from the
upper-cased lab name — `0` when `lab.upper()` is `CAPABLE`, exactly
`0.005` when it is `DIAMOND` or `FIRE` — and raises exactly when
`lab.upper()` is outside the closed enumeration; such a raise happens
eagerly at configuration construction time (here with warp disabled, so
that the earlier warp check cannot mask it). -/
theorem set_tshutter_spec (lab : String) :
    (pyUpper lab = "CAPABLE" → set_tshutter lab = .ok 0) ∧
    ((pyUpper lab = "DIAMOND" ∨ pyUpper lab = "FIRE") →
      set_tshutter lab = .ok (5 / 1000)) ∧
    ((∃ e, set_tshutter lab = .error e) ↔
      ¬ (pyUpper lab = "CAPABLE" ∨ pyUpper lab = "DIAMOND" ∨ pyUpper lab = "FIRE")) ∧
    (∀ fn ss ng ne ang lp sp od ext,
      ¬ (pyUpper lab = "CAPABLE" ∨ pyUpper lab = "DIAMOND" ∨ pyUpper lab = "FIRE") →
        gcodeParameters_init fn ss lab false ng ne ang lp sp od ext =
          .error (labErrMsg lab)) := by
  refine ⟨?_, ?_, ?_, ?_⟩
  · intro h
    simp [set_tshutter, h]
  · rintro (h | h) <;> simp [set_tshutter, h]
  · by_cases h : pyUpper lab = "CAPABLE" ∨ pyUpper lab = "DIAMOND" ∨ pyUpper lab = "FIRE"
    · rcases h with h | h | h <;> simp [set_tshutter, h]
    · simp [set_tshutter, h]
  · intro fn ss ng ne ang lp sp od ext h
    simp [gcodeParameters_init, antiwarp_management, set_tshutter, h, Bind.bind, Except.bind]

/-- Closed witness for C3 (amended): lab `"FIRE"` yields exactly 0.005,
lab `"diamond"` (upper-cased `DIAMOND`) yields 0.005, and construction
with the unknown lab `"bologna"` raises eagerly. -/
theorem set_tshutter_spec_witness :
    set_tshutter "FIRE" = .ok (5 / 1000) ∧
    set_tshutter "diamond" = .ok (5 / 1000) ∧
    gcodeParameters_init none (none, none) "bologna" false (3/2) (133/100) 0
        (1/2) (1/4) 6 (fun _ _ => 0) = .error (labErrMsg "bologna") := by
  refine ⟨(set_tshutter_spec "FIRE").2.1 (Or.inr (by decide)),
    (set_tshutter_spec "diamond").2.1 (Or.inl (by decide)),
    (set_tshutter_spec "bologna").2.2.2 none (none, none) (3/2) (133/100) 0
      (1/2) (1/4) 6 (fun _ _ => 0) (by decide)⟩

/-- Counterexample to C6 as stated: `WaveguideParameters` construction
with the non-positive repeat count `scan = -1` succeeds — the code only
checks `isinstance(scan, int)`, never positivity. -/
theorem waveguideParameters_negative_scan_cex :
    isOkB (waveguideParameters_init (.int (-1)) 20 (35/1000) 15 40 (1/2)
      (15/1000) 1 1200 500) = true ∧
    ¬ ((-1 : ℤ) > 0) := by
  exact ⟨rfl, by decide⟩

/-- C6 (amended): `WaveguideParameters` construction succeeds exactly
when the `scan` argument is a Python `int` — of any sign; only
integer-ness is validated (`ValueError('Number of scan must be
integer.')` otherwise), positivity is not checked. -/
theorem waveguideParameters_scan_validation (scan : PyNumber)
    (speed depth radius speedpos dwelltime dsafe margin cr acc : ℚ) :
    (isOkB (waveguideParameters_init scan speed depth radius speedpos
        dwelltime dsafe margin cr acc) = true ↔ ∃ n, scan = .int n) ∧
    (∀ q, scan = .float q →
      waveguideParameters_init scan speed depth radius speedpos
        dwelltime dsafe margin cr acc =
          .error "Number of scan must be integer.") := by
  cases scan <;> simp [waveguideParameters_init, isOkB]

/-- Closed witness for C6 (amended): a float repeat count is rejected
with the integer-validation message. -/
theorem waveguideParameters_scan_validation_witness :
    waveguideParameters_init (.float (1/2)) 20 (35/1000) 15 40 (1/2)
      (15/1000) 1 1200 500 = .error "Number of scan must be integer." :=
  (waveguideParameters_scan_validation (.float (1/2)) 20 (35/1000) 15 40 (1/2)
    (15/1000) 1 1200 500).2 (1/2) rfl

/-- C9: every successfully constructed `WaveguideParameters` carries the
derived point-spacing bound `dl = speed / cmd_rate_max` and the
acceleration-limited ramp length `lvelo = 3 * (0.5 * speed^2 / acc_max)`,
both computed at construction from the object's speed and the tool's
command-rate and acceleration ceilings. -/
theorem waveguideParameters_derived_quantities (scan : PyNumber)
    (speed depth radius speedpos dwelltime dsafe margin cr acc : ℚ)
    (p : WaveguideParameters)
    (h : waveguideParameters_init scan speed depth radius speedpos
      dwelltime dsafe margin cr acc = .ok p) :
    p.dl = speed / cr ∧ p.lvelo = 3 * (1 / 2 * speed ^ 2 / acc) := by
  cases scan with
  | float q => simp [waveguideParameters_init] at h
  | int n =>
      simp only [waveguideParameters_init, Except.ok.injEq] at h
      subst h
      exact ⟨rfl, rfl⟩

/-- Closed witness for C9: at `speed = 20`, `cmd_rate_max = 1200`,
`acc_max = 500`, the constructed record has `dl = 20/1200` and
`lvelo = 3 * (0.5 * 20^2 / 500)`. -/
theorem waveguideParameters_derived_quantities_witness :
    ({ scan := 6, speed := 20, depth := 35/1000, radius := 15, speedpos := 40,
       dwelltime := 1/2, cmd_rate_max := 1200, acc_max := 500,
       dsafe := 15/1000, margin := 1, lvelo := 3 * (1 / 2 * 20 ^ 2 / 500),
       dl := 20 / 1200, lwarp := 10 * (20 / 1200) } : WaveguideParameters).dl
        = 20 / 1200 ∧
    ({ scan := 6, speed := 20, depth := 35/1000, radius := 15, speedpos := 40,
       dwelltime := 1/2, cmd_rate_max := 1200, acc_max := 500,
       dsafe := 15/1000, margin := 1, lvelo := 3 * (1 / 2 * 20 ^ 2 / 500),
       dl := 20 / 1200, lwarp := 10 * (20 / 1200) } : WaveguideParameters).lvelo
        = 3 * (1 / 2 * 20 ^ 2 / 500) :=
  waveguideParameters_derived_quantities (.int 6) 20 (35/1000) 15 40 (1/2)
    (15/1000) 1 1200 500 _ rfl

/-- C7: with warp compensation disabled, the installed warp function is
the literal zero function — `fwarp x y = 0` for all planar coordinates —
and configuration construction succeeds for every sample size (the
sample-size check only runs when warp is enabled); the lab is assumed
recognised, construction failing for unrelated lab reasons otherwise. -/
theorem antiwarp_disabled_zero (fn : Option String)
    (ss : Option ℚ × Option ℚ) (lab : String) (ext : ℚ → ℚ → ℚ)
    (hlab : pyUpper lab = "CAPABLE" ∨ pyUpper lab = "DIAMOND" ∨ pyUpper lab = "FIRE") :
    antiwarp_management false ss ext = .ok (fun _ _ => 0) ∧
    ∃ p, gcodeParameters_init fn ss lab false (3/2) (133/100) 0 (1/2) (1/4) 6 ext
        = .ok p ∧ ∀ x y : ℚ, p.fwarp x y = 0 := by
  refine ⟨rfl, ?_⟩
  obtain ⟨t, ht⟩ : ∃ t, set_tshutter lab = .ok t := by
    rcases hlab with h | h | h <;> simp [set_tshutter, h]
  refine ⟨GcodeParameters.mk fn ss lab false (fun _ _ => 0) t (1/2) (1/4) 6
    (3/2) (133/100) 0 ((3/2) / (133/100)) ss.1 ss.2, ?_, fun x y => rfl⟩
  simp [gcodeParameters_init, antiwarp_management, ht, Bind.bind, Except.bind]

/-- Closed witness for C7: lab `"CAPABLE"`, a missing sample-size
component, warp disabled — construction succeeds and the installed warp
function is identically zero (evaluated at `(7, -3)`). -/
theorem antiwarp_disabled_zero_witness :
    antiwarp_management false (none, some 25) (fun x y => x + y)
      = .ok (fun _ _ => 0) ∧
    ∃ p, gcodeParameters_init none (none, some 25) "CAPABLE" false (3/2)
        (133/100) 0 (1/2) (1/4) 6 (fun x y => x + y) = .ok p ∧
      p.fwarp 7 (-3) = 0 := by
  obtain ⟨hz, p, hp, hall⟩ := antiwarp_disabled_zero none (none, some 25)
    "CAPABLE" (fun x y => x + y) (Or.inl (by decide))
  exact ⟨hz, p, hp, hall 7 (-3)⟩

/-- C8: with warp compensation enabled and either sample-size component
missing (`None`), configuration setup fails with the error reporting the
offending sample-size values; the failure is independent of the external
warp surface — no warp function is fetched or built. -/
theorem antiwarp_missing_samplesize (ss : Option ℚ × Option ℚ)
    (h : ss.1 = none ∨ ss.2 = none) :
    (∀ ext, antiwarp_management true ss ext = .error (sampleSizeErrMsg ss)) ∧
    (∀ fn lab ng ne ang lp sp od ext,
      gcodeParameters_init fn ss lab true ng ne ang lp sp od ext =
        .error (sampleSizeErrMsg ss)) := by
  constructor
  · intro ext
    simp [antiwarp_management, h]
  · intro fn lab ng ne ang lp sp od ext
    simp [gcodeParameters_init, antiwarp_management, h, Bind.bind, Except.bind]

/-- Closed witness for C8: warp enabled with `samplesize = (None, 25)`
fails reporting both values, for two different external surfaces. -/
theorem antiwarp_missing_samplesize_witness :
    antiwarp_management true (none, some 25) (fun x y => x * y)
      = .error (sampleSizeErrMsg (none, some 25)) ∧
    gcodeParameters_init none (none, some 25) "CAPABLE" true (3/2) (133/100) 0
        (1/2) (1/4) 6 (fun _ _ => 42)
      = .error (sampleSizeErrMsg (none, some 25)) := by
  refine ⟨(antiwarp_missing_samplesize (none, some 25) (Or.inl rfl)).1 _,
    (antiwarp_missing_samplesize (none, some 25) (Or.inl rfl)).2 none "CAPABLE"
      (3/2) (133/100) 0 (1/2) (1/4) 6 (fun _ _ => 42)⟩

/-- A `Waveguide` or `Marker` leaf has nesting depth 0. -/
theorem nest_level_leaf (o : Obj) (h : isWaveguide o = true ∨ isMarker o = true) :
    nest_level o = 0 := by
  rcases h with h | h <;> cases o <;> simp_all [isWaveguide, isMarker, nest_level]

/-- A list all of whose elements have depth 0 has elementwise maximum 0. -/
theorem nest_levelList_eq_zero (xs : List Obj)
    (h : ∀ o ∈ xs, nest_level o = 0) : nest_levelList xs = 0 := by
  induction xs with
  | nil => simp [nest_levelList]
  | cons o os ih =>
      simp only [nest_levelList]
      rw [h o (by simp), ih (fun o ho => h o (by simp [ho]))]
      simp

/-- A well-formed waveguide bunch has nesting depth at most 1. -/
theorem nest_level_goodWgBunch (b : Obj) (h : goodWgBunch b = true) :
    nest_level b ≤ 1 := by
  cases b with
  | waveguide s ps => simp [nest_level]
  | objList xs =>
      simp only [goodWgBunch, Bool.and_eq_true, List.all_eq_true] at h
      have h0 : nest_levelList xs = 0 :=
        nest_levelList_eq_zero xs (fun o ho => nest_level_leaf o (Or.inl (h.2 o ho)))
      simp [nest_level, h0]
  | _ => simp_all [goodWgBunch]

/-- Elementwise depth bound lifted to the running maximum. -/
theorem nest_levelList_le_one (bs : List Obj)
    (h : ∀ b ∈ bs, nest_level b ≤ 1) : nest_levelList bs ≤ 1 := by
  induction bs with
  | nil => simp [nest_levelList]
  | cons b bs ih =>
      simp only [nest_levelList, max_le_iff]
      exact ⟨h b (by simp), ih (fun b hb => h b (by simp [hb]))⟩

/-- Writing the bodies of a list of `Waveguide`/`Marker` objects never
raises. -/
theorem emitWrites_ok (xs : List Obj)
    (h : ∀ o ∈ xs, isWaveguide o = true ∨ isMarker o = true) :
    ∃ ins, emitWrites xs = .ok ins := by
  induction xs with
  | nil => exact ⟨[], rfl⟩
  | cons o os ih =>
      obtain ⟨rest, hr⟩ := ih (fun o ho => h o (by simp [ho]))
      obtain ⟨ps, hps⟩ : ∃ ps, pointsAttr o = some ps := by
        rcases h o (by simp) with ho | ho <;> cases o <;>
          simp_all [isWaveguide, isMarker, pointsAttr]
      exact ⟨writeMoves ps ++ rest,
        by simp [emitWrites, hps, hr, Bind.bind, Except.bind]⟩

/-- Emitting a well-formed waveguide bunch, or a single marker, never
raises. -/
theorem emitBunch_ok (b : Obj)
    (h : goodWgBunch b = true ∨ isMarker b = true) :
    ∃ ins, emitBunch b = .ok ins := by
  cases b with
  | waveguide s ps => exact ⟨_, rfl⟩
  | marker s ps => exact ⟨_, rfl⟩
  | objList xs =>
      have hgood : goodWgBunch (.objList xs) = true := by
        rcases h with h | h
        · exact h
        · simp [isMarker] at h
      simp only [goodWgBunch, Bool.and_eq_true, List.all_eq_true] at hgood
      obtain ⟨hne, hall⟩ := hgood
      cases xs with
      | nil => simp at hne
      | cons x xs =>
          obtain ⟨s, ps, hx⟩ : ∃ s ps, x = .waveguide s ps := by
            have := hall x (by simp)
            cases x <;> simp_all [isWaveguide]
          obtain ⟨body, hbody⟩ := emitWrites_ok (x :: xs)
            (fun o ho => Or.inl (hall o ho))
          subst hx
          exact ⟨Instruction.repeatBegin s :: (body ++ [Instruction.repeatEnd]),
            by simp [emitBunch, listcast, scanAttr, hbody,
              Bind.bind, Except.bind]⟩
  | _ => simp_all [goodWgBunch, isMarker]

/-- Emitting a whole collection of bunches never raises when no bunch
does. -/
theorem emitBunches_ok (bs : List Obj)
    (h : ∀ b ∈ bs, ∃ ins, emitBunch b = .ok ins) :
    ∃ ins, emitBunches bs = .ok ins := by
  induction bs with
  | nil => exact ⟨[], rfl⟩
  | cons b bs ih =>
      obtain ⟨ins, hb⟩ := h b (by simp)
      obtain ⟨rest, hr⟩ := ih (fun b hb => h b (by simp [hb]))
      exact ⟨ins ++ rest, by simp [emitBunches, hb, hr, Bind.bind, Except.bind]⟩

/-- C5: the per-class compilers validate nesting depth before emitting
anything: a waveguide grouping of depth greater than 2 makes `_wg_pgm`
raise the error naming the observed depth and the limit 2, with no
instruction emitted, while a well-formed grouping of depth at most 2
compiles successfully; symmetrically a marker grouping of depth greater
than 1 makes `_mk_pgm` raise the error naming the observed depth and the
limit 1, while a flat marker list compiles successfully. -/
theorem pgm_nesting_validation (wgs mks : List Obj) :
    (nest_level (.objList wgs) > 2 →
      wg_pgm wgs = .error (wgNestErrMsg (nest_level (.objList wgs)))) ∧
    (wgs.all goodWgBunch = true →
      nest_level (.objList wgs) ≤ 2 ∧ isOkB (wg_pgm wgs) = true) ∧
    (nest_level (.objList mks) > 1 →
      mk_pgm mks = .error (mkNestErrMsg (nest_level (.objList mks)))) ∧
    (mks.all isMarker = true →
      nest_level (.objList mks) ≤ 1 ∧ isOkB (mk_pgm mks) = true) := by
  refine ⟨?_, ?_, ?_, ?_⟩
  · intro h
    simp [wg_pgm, h]
  · intro hall
    simp only [List.all_eq_true] at hall
    have hle : nest_level (.objList wgs) ≤ 2 := by
      have := nest_levelList_le_one wgs
        (fun b hb => nest_level_goodWgBunch b (hall b hb))
      simp only [nest_level]
      omega
    refine ⟨hle, ?_⟩
    obtain ⟨body, hbody⟩ := emitBunches_ok wgs
      (fun b hb => emitBunch_ok b (Or.inl (hall b hb)))
    by_cases he : wgs.isEmpty <;>
      simp [wg_pgm, Nat.not_lt.mpr hle, he, hbody, isOkB, Bind.bind, Except.bind]
  · intro h
    simp [mk_pgm, h]
  · intro hall
    simp only [List.all_eq_true] at hall
    have hle : nest_level (.objList mks) ≤ 1 := by
      have := nest_levelList_eq_zero mks
        (fun o ho => nest_level_leaf o (Or.inr (hall o ho)))
      simp [nest_level, this]
    refine ⟨hle, ?_⟩
    obtain ⟨body, hbody⟩ := emitBunches_ok mks
      (fun b hb => emitBunch_ok b (Or.inr (hall b hb)))
    by_cases he : mks.isEmpty <;>
      simp [mk_pgm, Nat.not_lt.mpr hle, he, hbody, isOkB, Bind.bind, Except.bind]

/-- Closed witness for C5: a depth-3 waveguide grouping fails naming
depth 3 and limit 2; a depth-2 grouping compiles; a depth-2 marker
grouping fails naming depth 2 and limit 1; a flat marker list
compiles. -/
theorem pgm_nesting_validation_witness :
    wg_pgm [.objList [.objList [.waveguide 1 []]]] = .error (wgNestErrMsg 3) ∧
    isOkB (wg_pgm [.objList [.waveguide 1 [], .waveguide 2 []]]) = true ∧
    mk_pgm [.objList [.marker 1 []]] = .error (mkNestErrMsg 2) ∧
    isOkB (mk_pgm [.marker 1 []]) = true := by
  have hv3 : nest_level (.objList [.objList [.objList [.waveguide 1 []]]]) = 3 := by
    simp [nest_level, nest_levelList]
  have hv2 : nest_level (.objList [.objList [.marker 1 []]]) = 2 := by
    simp [nest_level, nest_levelList]
  have h1 := (pgm_nesting_validation [.objList [.objList [.waveguide 1 []]]] []).1
  have h2 := (pgm_nesting_validation
    [.objList [.waveguide 1 [], .waveguide 2 []]] []).2.1
  have h3 := (pgm_nesting_validation [] [.objList [.marker 1 []]]).2.2.1
  have h4 := (pgm_nesting_validation [] [.marker 1 []]).2.2.2
  rw [hv3] at h1
  rw [hv2] at h3
  exact ⟨h1 (by norm_num), (h2 (by rfl)).2, h3 (by norm_num), (h4 (by rfl)).2⟩

end Femto
